import Mathlib

/-!
Shallow embedding of the `subprocess` library (subprocess.h / subprocess.cpp):
an expression tree of pipeline nodes (`Subprocess`), the stream-capability
vocabulary (`Streams`, `StreamFlags`), the environment (`Environment`), and a
pure interpreter (`startEval` / `runEval`) that mirrors each node's
`start`/`wait` implementation.  OS-level pipes are modelled by a `World` of
buffers keyed by descriptor number; forked processes and spawned worker
threads are recorded in an event trace; C++ exceptions become `Except` errors.
External programs (`Exec`) get their exit status from an oracle parameter.
-/

namespace SubprocessLib

/-- Standard input, output and error file descriptors (struct `Streams`).
`None = -1` (no fd), `New = -2` (the node must create its own fd). -/
structure Streams where
  in_ : Int := -1
  out : Int := -1
  err : Int := -1
deriving DecidableEq

/-- `Streams::None`: no fd for this stream. -/
def Streams.None : Int := -1

/-- `Streams::New`: the process needs to create its own fd for this stream. -/
def Streams.New : Int := -2

/-- Process capabilities for stdin/stdout/stderr (struct `StreamFlags`);
each slot is a bitmask over `Ignore | Create | Accept`, default `Ignore`. -/
structure StreamFlags where
  in_ : Nat := 1
  out : Nat := 1
  err : Nat := 1
deriving DecidableEq

/-- `StreamFlags::Ignore`: the stream can have no fd. -/
def StreamFlags.Ignore : Nat := 1

/-- `StreamFlags::Create`: the node can create a new fd for the stream. -/
def StreamFlags.Create : Nat := 2

/-- `StreamFlags::Accept`: the node can accept a caller-supplied fd. -/
def StreamFlags.Accept : Nat := 4

/-- Errors thrown by the library: `std::invalid_argument` (validation),
`std::out_of_range` from `map::at` (missing variable), `std::system_error`. -/
inductive Err where
  | validation (msg : String)
  | missingVar (name : String)
  | system (msg : String)
deriving DecidableEq

/-- Which kind of worker thread (`RunThread`) a node spawned. -/
inductive TaskKind where
  | andK
  | orK
  | readK
  | echoK
deriving DecidableEq

/-- Observable launch events: a forked+exec'd OS process (with its resolved
argv and the envp block passed to `execvpe`), or a spawned worker thread. -/
inductive Event where
  | proc (argv : List String) (envp : List String)
  | task (kind : TaskKind)
deriving DecidableEq

/-- Lookup in an association list keyed by variable name. -/
def envFind : List (String × String × Bool) → String → Option (String × Bool)
  | [], _ => none
  | (k, v) :: rest, key => if k = key then some v else envFind rest key

/-- Insert-or-assign, as `env[name] = value` on a `std::map`. -/
def envSet : List (String × String × Bool) → String → String × Bool →
    List (String × String × Bool)
  | [], key, v => [(key, v)]
  | (k, v') :: rest, key, v =>
    if k = key then (k, v) :: rest else (k, v') :: envSet rest key v

/-- The subprocess environment (class `Environment`): variable name to
(value, exported flag). -/
structure Environment where
  env : List (String × String × Bool) := []
deriving DecidableEq

/-- `Environment::envp()` as written in the source: for each exported entry it
pushes `el.second.first.c_str()` — the VALUE string only — into the block
handed to `execvpe` (the terminating null pointer is dropped here). -/
def Environment.envp (e : Environment) : List String :=
  (e.env.filter fun el => el.2.2).map fun el => el.2.1

/-- The environment block as the specification describes it: each entry
carries both the variable's name and its value (`NAME=VALUE`), filtered to
exported entries.  This definition follows the spec's words and exists only
to be compared with `Environment.envp`, which is translated from the code. -/
def Environment.envpSpec (e : Environment) : List String :=
  (e.env.filter fun el => el.2.2).map fun el => el.1 ++ "=" ++ el.2.1

/-- An argument evaluated at subprocess runtime (class `Gettable`): a plain
string (`GettableString`) or an environment variable (`GettableVariable`). -/
inductive Gettable where
  | str (value : String)
  | var (name : String)
deriving DecidableEq

/-- `Gettable::get`: resolve the argument against an `Environment`.
`GettableVariable::get` uses `env.env.at(name)`, which throws when absent. -/
def Gettable.get (g : Gettable) (env : Environment) : Except Err String :=
  match g with
  | .str v => .ok v
  | .var n =>
    match envFind env.env n with
    | some v => .ok v.1
    | none => .error (.missingVar n)

/-- Resolve a list of arguments left to right, stopping at the first error. -/
def resolveAll : List Gettable → Environment → Except Err (List String)
  | [], _ => .ok []
  | g :: gs, env =>
    match g.get env with
    | .error e => .error e
    | .ok s =>
      match resolveAll gs env with
      | .error e => .error e
      | .ok ss => .ok (s :: ss)

/-- The expression tree: one constructor per concrete `Subprocess` subclass
(`Pipe`, `Or`, `And`, `Exec`, `Echo`, `Read`, `File`, `True`, `False`). -/
inductive Subprocess where
  | pipe (lhs rhs : Subprocess)
  | or_ (lhs rhs : Subprocess)
  | and_ (lhs rhs : Subprocess)
  | exec (argv : List Gettable)
  | echo (var : List Gettable)
  | read (name : String)
  | file (path : Gettable) (mode : Nat)
  | true_
  | false_
deriving DecidableEq

/-- `File::Read` open-mode bit. -/
def FileMode.Read : Nat := 1

/-- `File::Write` open-mode bit. -/
def FileMode.Write : Nat := 2

/-- `File::Append` open-mode bit. -/
def FileMode.Append : Nat := 4

/-- Each node's declared `get_flags()`.  `Pipe` takes stdin capability from
its left child and both stdout AND stderr capability from the right child's
stdout flags; `And`/`Or`/`True`/`False` use the base-class default (all
`Ignore`); the leaf nodes declare the sets written in their overrides. -/
def Subprocess.get_flags : Subprocess → StreamFlags
  | .pipe l r => { in_ := l.get_flags.in_, out := r.get_flags.out, err := r.get_flags.out }
  | .or_ _ _ => {}
  | .and_ _ _ => {}
  | .exec _ =>
    { in_ := StreamFlags.Create ||| StreamFlags.Accept ||| StreamFlags.Ignore,
      out := StreamFlags.Create ||| StreamFlags.Accept ||| StreamFlags.Ignore,
      err := StreamFlags.Create ||| StreamFlags.Accept ||| StreamFlags.Ignore }
  | .echo _ =>
    { in_ := StreamFlags.Ignore,
      out := StreamFlags.Create ||| StreamFlags.Accept,
      err := StreamFlags.Ignore }
  | .read _ =>
    { in_ := StreamFlags.Create ||| StreamFlags.Accept,
      out := StreamFlags.Ignore,
      err := StreamFlags.Ignore }
  | .file _ mode =>
    { in_ := if mode &&& FileMode.Write ≠ 0 then StreamFlags.Create else StreamFlags.Ignore,
      out := if mode &&& FileMode.Read ≠ 0 then StreamFlags.Create else StreamFlags.Ignore,
      err := StreamFlags.Ignore }
  | .true_ => {}
  | .false_ => {}

/-- `Subprocess::check_stream`: one requested slot is compatible with one
capability bitmask. -/
def Subprocess.check_stream (stream : Int) (flag : Nat) : Bool :=
  (stream = Streams.None && flag &&& StreamFlags.Ignore ≠ 0) ||
  (stream = Streams.New && flag &&& StreamFlags.Create ≠ 0) ||
  (stream ≥ 0 && flag &&& StreamFlags.Accept ≠ 0)

/-- `Subprocess::check_streams` on a given capability set: throws
`std::invalid_argument` naming the first incompatible slot. -/
def check_streamsE (flags : StreamFlags) (str : Streams) : Except Err Unit :=
  if ¬Subprocess.check_stream str.in_ flags.in_ then
    .error (.validation "Wrong file descriptor option for stdin")
  else if ¬Subprocess.check_stream str.out flags.out then
    .error (.validation "Wrong file descriptor option for stdout")
  else if ¬Subprocess.check_stream str.err flags.err then
    .error (.validation "Wrong file descriptor option for stderr")
  else .ok ()

/-- `Subprocess::check_streams` of a node: the node's declared flags against
the requested streams. -/
def Subprocess.check_streams (s : Subprocess) (str : Streams) : Except Err Unit :=
  check_streamsE s.get_flags str

/-- Boolean form of the three-slot compatibility check. -/
def Subprocess.check_streams_ok (s : Subprocess) (str : Streams) : Bool :=
  Subprocess.check_stream str.in_ s.get_flags.in_ &&
  Subprocess.check_stream str.out s.get_flags.out &&
  Subprocess.check_stream str.err s.get_flags.err

/-- OS state visible to the model: pipe/file buffers keyed by descriptor
number, the next fresh descriptor, and the next fresh process id. -/
structure World where
  bufs : List (Nat × List Char) := []
  nextFd : Nat := 3
  nextPid : Nat := 1
deriving DecidableEq

/-- Append data to the buffer behind a descriptor. -/
def bufWrite : List (Nat × List Char) → Nat → List Char → List (Nat × List Char)
  | [], fd, d => [(fd, d)]
  | (f, c) :: rest, fd, d =>
    if f = fd then (f, c ++ d) :: rest else (f, c) :: bufWrite rest fd d

/-- Read the whole buffer behind a descriptor (read loop to end-of-stream). -/
def bufRead : List (Nat × List Char) → Nat → List Char
  | [], _ => []
  | (f, c) :: rest, fd => if f = fd then c else bufRead rest fd

/-- `open_pipe(str, fds, ...)`: `None` leaves the slot untouched; `New`
allocates a fresh pipe and rebinds the slot to it; a bound fd is used as-is.
Returns the updated slot, the fd the node's own I/O loop uses, and the new
world.  (The two ends of a real `pipe2` pair share one buffer id here.) -/
def open_pipe (slot : Int) (w : World) : Int × Int × World :=
  if slot = Streams.None then (slot, Streams.None, w)
  else if slot = Streams.New then
    (Int.ofNat w.nextFd, Int.ofNat w.nextFd,
      { w with bufs := (w.nextFd, []) :: w.bufs, nextFd := w.nextFd + 1 })
  else (slot, slot, w)

/-- `Read::start`'s trailing-newline strip: drop the final character when it
is `'\n'` (the `out.empty()` guard is subsumed by `getLast?`). -/
def stripNewline (l : List Char) : List Char :=
  if l.getLast? = some '\n' then l.dropLast else l

/-- `Echo::start`'s write loop: the resolved arguments joined by single
spaces (the trailing `"\n"` is written separately). -/
def joinArgs : List String → List Char
  | [] => []
  | [s] => s.data
  | s :: rest => s.data ++ ' ' :: joinArgs rest

/-- A started unit of work (class `RunSubprocess` and its subclasses).
Worker threads run eagerly in this deterministic model, so `RunThread`
carries its finished `ret`; `RunExec` carries the status the OS will report. -/
inductive RunSubprocess where
  | runExec (pid : Nat) (streams : Streams) (status : Int)
  | runThread (ret : Int) (streams : Streams)
  | runEmpty (streams : Streams) (ret : Int)
  | runPipe (lhs rhs : RunSubprocess)
deriving DecidableEq

/-- `RunSubprocess::get_streams`: `RunPipe` exposes its left child's stdin
and its right child's stdout and stderr. -/
def RunSubprocess.get_streams : RunSubprocess → Streams
  | .runExec _ s _ => s
  | .runThread _ s => s
  | .runEmpty s _ => s
  | .runPipe l r =>
    { in_ := l.get_streams.in_, out := r.get_streams.out, err := r.get_streams.err }

/-- `RunSubprocess::wait`: `RunPipe::wait` is `lhs->wait() | rhs->wait()`,
the bitwise or of the two children's statuses. -/
def RunSubprocess.wait : RunSubprocess → Int
  | .runExec _ _ st => st
  | .runThread ret _ => ret
  | .runEmpty _ ret => ret
  | .runPipe l r => Int.lor l.wait r.wait

/-- Result of a `start` call: the handle or the thrown error, together with
the environment, OS world, and the launch events that happened on the way. -/
abbrev EResult := Except Err RunSubprocess × Environment × World × List Event

/-- Oracle giving the exit status of an external program from its resolved
argv and the envp block it was launched with. -/
abbrev OsOracle := List String → List String → Int

/-- The always-zero oracle, used to instantiate theorems on trees that
contain no `exec` node. -/
def osZero : OsOracle := fun _ _ => 0

/-- The initial world: descriptors 0,1,2 are taken, no buffers, first pid 1. -/
def World.init : World := {}

/-- `Exec::start`: check streams, open the three pipes, fork; the child
resolves every argument against the environment at launch time and execs
with `env.envp()`; the parent returns a `RunExec` over the updated slots.
(A missing variable aborts the child; it is modelled as an error here.) -/
def Exec.start (os : OsOracle) (argv : List Gettable) (str : Streams)
    (env : Environment) (w : World) : EResult :=
  match check_streamsE (Subprocess.exec argv).get_flags str with
  | .error e => (.error e, env, w, [])
  | .ok _ =>
    let p0 := open_pipe str.in_ w
    let p1 := open_pipe str.out p0.2.2
    let p2 := open_pipe str.err p1.2.2
    match resolveAll argv env with
    | .error e => (.error e, env, p2.2.2, [])
    | .ok args =>
      let block := env.envp
      (.ok (.runExec p2.2.2.nextPid { in_ := p0.1, out := p1.1, err := p2.1 } (os args block)),
        env, { p2.2.2 with nextPid := p2.2.2.nextPid + 1 }, [.proc args block])

/-- `Echo::start`: check streams, open the output pipe, spawn a thread that
writes the space-joined resolved arguments followed by one newline. -/
def Echo.start (var : List Gettable) (str : Streams) (env : Environment)
    (w : World) : EResult :=
  match check_streamsE (Subprocess.echo var).get_flags str with
  | .error e => (.error e, env, w, [])
  | .ok _ =>
    let p := open_pipe str.out w
    match resolveAll var env with
    | .error e => (.error e, env, p.2.2, [])
    | .ok args =>
      let w2 := if 0 ≤ p.2.1 then
          { p.2.2 with bufs := bufWrite p.2.2.bufs p.2.1.toNat (joinArgs args ++ ['\n']) }
        else p.2.2
      (.ok (.runThread 0 { str with out := p.1 }), env, w2, [.task .echoK])

/-- `Read::start`: with a mutable environment, check streams, open the input
pipe, spawn a thread that reads to end-of-stream, strips one trailing
newline, and stores the result under `name` with exported = false; with a
const environment it throws before doing anything. -/
def Read.start (mutEnv : Bool) (name : String) (str : Streams) (env : Environment)
    (w : World) : EResult :=
  if mutEnv then
    match check_streamsE (Subprocess.read name).get_flags str with
    | .error e => (.error e, env, w, [])
    | .ok _ =>
      let p := open_pipe str.in_ w
      let content := if 0 ≤ p.2.1 then bufRead p.2.2.bufs p.2.1.toNat else []
      (.ok (.runThread 0 { str with in_ := p.1 }),
        { env := envSet env.env name (String.mk (stripNewline content), false) },
        p.2.2, [.task .readK])
  else (.error (.validation "Can't create variable in const Environment"), env, w, [])

/-- `File::start`: check streams, open the path (always succeeds in this
filesystem-free model, allocating a fresh descriptor), and return an
immediately-completed handle exposing the fd on the matching stream. -/
def File.start (path : Gettable) (mode : Nat) (str : Streams) (env : Environment)
    (w : World) : EResult :=
  match check_streamsE (Subprocess.file path mode).get_flags str with
  | .error e => (.error e, env, w, [])
  | .ok _ =>
    match path.get env with
    | .error e => (.error e, env, w, [])
    | .ok _ =>
      let fd := w.nextFd
      (.ok (.runEmpty
          { in_ := if mode &&& FileMode.Write ≠ 0 then Int.ofNat fd else Streams.None,
            out := if mode &&& FileMode.Read ≠ 0 then Int.ofNat fd else Streams.None,
            err := Streams.None } 0),
        env, { w with bufs := (fd, []) :: w.bufs, nextFd := fd + 1 }, [])

/-- `True::start`: immediately-completed handle with status 0 and the
default (all-`None`) streams. -/
def True_.start (str : Streams) (env : Environment) (w : World) : EResult :=
  match check_streamsE ({} : StreamFlags) str with
  | .error e => (.error e, env, w, [])
  | .ok _ => (.ok (.runEmpty {} 0), env, w, [])

/-- `False::start`: immediately-completed handle with status -1. -/
def False_.start (str : Streams) (env : Environment) (w : World) : EResult :=
  match check_streamsE ({} : StreamFlags) str with
  | .error e => (.error e, env, w, [])
  | .ok _ => (.ok (.runEmpty {} (-1)), env, w, [])

/-- The interpreter for `Subprocess::start` (plus the eager bodies of the
worker threads).  `mutEnv` says whether the environment reference is mutable
(`start(Streams, Environment&)`) or const.  `Pipe::start` negotiates which
side creates the shared descriptor exactly as the source's template does:
left first when left can `Create` its output and right can `Accept` its
input, right first in the mirrored case, otherwise `invalid_argument`; the
child streams it passes leave `err` at its default `None`.  `And`/`Or` spawn
a thread that runs the left child to completion and short-circuits:
`ret = !(!run(lhs) && !run(rhs))` resp. `ret = !(!run(lhs) || !run(rhs))`. -/
def startEval (os : OsOracle) (mutEnv : Bool) :
    Subprocess → Streams → Environment → World → EResult
  | .exec argv, str, env, w => Exec.start os argv str env w
  | .echo var, str, env, w => Echo.start var str env w
  | .read name, str, env, w => Read.start mutEnv name str env w
  | .file p m, str, env, w => File.start p m str env w
  | .true_, str, env, w => True_.start str env w
  | .false_, str, env, w => False_.start str env w
  | .pipe l r, str, env, w =>
    match check_streamsE (Subprocess.pipe l r).get_flags str with
    | .error e => (.error e, env, w, [])
    | .ok _ =>
      if l.get_flags.out &&& StreamFlags.Create ≠ 0 ∧
          r.get_flags.in_ &&& StreamFlags.Accept ≠ 0 then
        match startEval os mutEnv l { in_ := str.in_, out := Streams.New } env w with
        | (.error e, env1, w1, t1) => (.error e, env1, w1, t1)
        | (.ok h1, env1, w1, t1) =>
          match startEval os mutEnv r { in_ := h1.get_streams.out, out := str.out } env1 w1 with
          | (.error e, env2, w2, t2) => (.error e, env2, w2, t1 ++ t2)
          | (.ok h2, env2, w2, t2) => (.ok (.runPipe h1 h2), env2, w2, t1 ++ t2)
      else if l.get_flags.out &&& StreamFlags.Accept ≠ 0 ∧
          r.get_flags.in_ &&& StreamFlags.Create ≠ 0 then
        match startEval os mutEnv r { in_ := Streams.New, out := str.out } env w with
        | (.error e, env1, w1, t1) => (.error e, env1, w1, t1)
        | (.ok h2, env1, w1, t1) =>
          match startEval os mutEnv l { in_ := str.in_, out := h2.get_streams.in_ } env1 w1 with
          | (.error e, env2, w2, t2) => (.error e, env2, w2, t1 ++ t2)
          | (.ok h1, env2, w2, t2) => (.ok (.runPipe h1 h2), env2, w2, t1 ++ t2)
      else (.error (.validation "Invalid pipe connection attempt"), env, w, [])
  | .and_ l r, str, env, w =>
    match check_streamsE ({} : StreamFlags) str with
    | .error e => (.error e, env, w, [])
    | .ok _ =>
      match startEval os mutEnv l {} env w with
      | (.error e, env1, w1, t1) => (.error e, env1, w1, .task .andK :: t1)
      | (.ok h1, env1, w1, t1) =>
        if h1.wait = 0 then
          match startEval os mutEnv r {} env1 w1 with
          | (.error e, env2, w2, t2) => (.error e, env2, w2, .task .andK :: (t1 ++ t2))
          | (.ok h2, env2, w2, t2) =>
            (.ok (.runThread (if h2.wait = 0 then 0 else 1) str), env2, w2,
              .task .andK :: (t1 ++ t2))
        else (.ok (.runThread 1 str), env1, w1, .task .andK :: t1)
  | .or_ l r, str, env, w =>
    match check_streamsE ({} : StreamFlags) str with
    | .error e => (.error e, env, w, [])
    | .ok _ =>
      match startEval os mutEnv l {} env w with
      | (.error e, env1, w1, t1) => (.error e, env1, w1, .task .orK :: t1)
      | (.ok h1, env1, w1, t1) =>
        if h1.wait = 0 then (.ok (.runThread 0 str), env1, w1, .task .orK :: t1)
        else
          match startEval os mutEnv r {} env1 w1 with
          | (.error e, env2, w2, t2) => (.error e, env2, w2, .task .orK :: (t1 ++ t2))
          | (.ok h2, env2, w2, t2) =>
            (.ok (.runThread (if h2.wait = 0 then 0 else 1) str), env2, w2,
              .task .orK :: (t1 ++ t2))

/-- `run(subprocess, env)`: `start({}, env)->wait()`, keeping the final
environment, world, and event trace visible. -/
def runEval (os : OsOracle) (mutEnv : Bool) (s : Subprocess) (env : Environment)
    (w : World) : Except Err Int × Environment × World × List Event :=
  match startEval os mutEnv s {} env w with
  | (.ok h, env1, w1, t) => (.ok h.wait, env1, w1, t)
  | (.error e, env1, w1, t) => (.error e, env1, w1, t)

/-! Helper lemmas. -/

lemma nat_lor_eq_zero_iff (m n : Nat) : m ||| n = 0 ↔ m = 0 ∧ n = 0 := by
  constructor
  · intro h
    constructor
    · apply Nat.eq_of_testBit_eq
      intro i
      have hbit := congrArg (fun x => Nat.testBit x i) h
      simp [Nat.testBit_lor] at hbit
      simp [hbit.1]
    · apply Nat.eq_of_testBit_eq
      intro i
      have hbit := congrArg (fun x => Nat.testBit x i) h
      simp [Nat.testBit_lor] at hbit
      simp [hbit.2]
  · rintro ⟨rfl, rfl⟩
    rfl

lemma int_lor_eq_zero_iff (a b : Int) : Int.lor a b = 0 ↔ a = 0 ∧ b = 0 := by
  cases a with
  | ofNat m =>
    cases b with
    | ofNat n =>
      show Int.ofNat (m ||| n) = 0 ↔ _
      rw [show ((0 : Int) = Int.ofNat 0) from rfl]
      simp only [Int.ofNat_inj, Int.ofNat_eq_coe]
      constructor
      · intro h
        have := (nat_lor_eq_zero_iff m n).1 (by exact_mod_cast h)
        exact ⟨by exact_mod_cast this.1, by exact_mod_cast this.2⟩
      · rintro ⟨h1, h2⟩
        have : m = 0 := by exact_mod_cast h1
        have : n = 0 := by exact_mod_cast h2
        simp_all
    | negSucc n =>
      show Int.negSucc (Nat.ldiff n m) = 0 ↔ _
      simp
  | negSucc m =>
    cases b with
    | ofNat n =>
      show Int.negSucc (Nat.ldiff m n) = 0 ↔ _
      simp
    | negSucc n =>
      show Int.negSucc (m &&& n) = 0 ↔ _
      simp

lemma check_streamsE_ok_iff (flags : StreamFlags) (str : Streams) :
    check_streamsE flags str = .ok () ↔
      (Subprocess.check_stream str.in_ flags.in_ &&
       Subprocess.check_stream str.out flags.out &&
       Subprocess.check_stream str.err flags.err) = true := by
  unfold check_streamsE
  cases hin : Subprocess.check_stream str.in_ flags.in_ <;>
    cases hout : Subprocess.check_stream str.out flags.out <;>
      cases herr : Subprocess.check_stream str.err flags.err <;> simp

lemma check_streamsE_fails (flags : StreamFlags) (str : Streams)
    (h : (Subprocess.check_stream str.in_ flags.in_ &&
          Subprocess.check_stream str.out flags.out &&
          Subprocess.check_stream str.err flags.err) = false) :
    ∃ m, check_streamsE flags str = .error (.validation m) := by
  unfold check_streamsE
  cases hin : Subprocess.check_stream str.in_ flags.in_ <;>
    cases hout : Subprocess.check_stream str.out flags.out <;>
      cases herr : Subprocess.check_stream str.err flags.err <;>
        simp_all

lemma resolveAll_str (strs : List String) (env : Environment) :
    resolveAll (strs.map .str) env = .ok strs := by
  induction strs with
  | nil => rfl
  | cons s rest ih => simp [resolveAll, Gettable.get, ih]

lemma stripNewline_concat (l : List Char) :
    stripNewline (l ++ ['\n']) = l := by
  unfold stripNewline
  rw [List.getLast?_concat, if_pos rfl, List.dropLast_concat]

/-! Claim theorems. -/

/-- C2: for every expression `X`, waiting on `And(LiteralFalse, X)` completes
with no observable side effect of `X`: the result — combined status 1, the
unchanged environment, the unchanged world, and a trace holding only the
`And` node's own worker thread — does not depend on `X` at all, so no process
or worker task of `X` is created and no capture of `X` reaches the
environment; symmetrically `Or(LiteralTrue, X)` completes with status 0
without ever executing `X`. -/
theorem short_circuit_never_runs_right (os : OsOracle) (mutEnv : Bool)
    (X : Subprocess) (env : Environment) (w : World) :
    runEval os mutEnv (.and_ .false_ X) env w = (.ok 1, env, w, [.task .andK]) ∧
    runEval os mutEnv (.or_ .true_ X) env w = (.ok 0, env, w, [.task .orK]) :=
  ⟨rfl, rfl⟩

/-- C3: a `RunPipe` handle's `wait()` combines the two children's wait
statuses with bitwise or, which is zero exactly when both statuses are zero
(the pipe succeeds iff both sides succeed), and its `get_streams()` exposes
the left child's stdin and the right child's stdout and stderr. -/
theorem runPipe_wait_combines_statuses :
    (∀ hl hr : RunSubprocess,
      (RunSubprocess.runPipe hl hr).wait = Int.lor hl.wait hr.wait) ∧
    (∀ hl hr : RunSubprocess,
      ((RunSubprocess.runPipe hl hr).wait = 0 ↔ hl.wait = 0 ∧ hr.wait = 0)) ∧
    (∀ hl hr : RunSubprocess,
      (RunSubprocess.runPipe hl hr).get_streams =
        { in_ := hl.get_streams.in_, out := hr.get_streams.out,
          err := hr.get_streams.err }) :=
  ⟨fun _ _ => rfl, fun hl hr => int_lor_eq_zero_iff hl.wait hr.wait, fun _ _ => rfl⟩

/-- C5 (code bug): the claim says the exec'd child receives an environment
block whose entries each carry the variable's name and its value, filtered to
exported entries.  `Environment::envp()` as written pushes only the VALUE
string of each exported entry (`el.second.first`), never `NAME=VALUE`: on an
environment holding exported `PATH=/usr/bin` and unexported `LOCAL=x`, the
code builds the block `["/usr/bin"]` while the spec's block is
`["PATH=/usr/bin"]`, and the launched process records exactly that malformed
block. -/
theorem envp_block_drops_variable_names :
    Environment.envp { env := [("PATH", "/usr/bin", true), ("LOCAL", "x", false)] } =
      ["/usr/bin"] ∧
    Environment.envpSpec { env := [("PATH", "/usr/bin", true), ("LOCAL", "x", false)] } =
      ["PATH=/usr/bin"] ∧
    (["/usr/bin"] : List String) ≠ ["PATH=/usr/bin"] ∧
    (startEval osZero false (.exec [.str "env"]) {}
        { env := [("PATH", "/usr/bin", true), ("LOCAL", "x", false)] } World.init).2.2.2 =
      [.proc ["env"] ["/usr/bin"]] :=
  ⟨rfl, rfl, by decide, rfl⟩

/-- C8: starting a `CaptureOutput` (`Read`) node against an immutable
(const) `Environment` raises a `ValidationError` immediately: the result is
the error with the environment, the world, and the event trace untouched, so
no process is spawned and no task is started. -/
theorem read_const_environment_rejected (os : OsOracle) (name : String)
    (str : Streams) (env : Environment) (w : World) :
    startEval os false (.read name) str env w =
      (.error (.validation "Can't create variable in const Environment"), env, w, []) :=
  rfl

/-- C9 counterexample: the literal-echo node's declared stderr capability is
`Ignore`, not `{Create, Accept}` as the claim states. -/
theorem echo_err_flag_counterexample :
    (Subprocess.echo [.str "test"]).get_flags.err = StreamFlags.Ignore ∧
    (Subprocess.echo [.str "test"]).get_flags.err ≠
      StreamFlags.Create ||| StreamFlags.Accept := by
  decide

/-- C9 (amended): the literal-echo node declares `{Create, Accept}` on its
stdout stream and `Ignore` on both stdin and stderr. -/
theorem echo_flags_amended (var : List Gettable) :
    (Subprocess.echo var).get_flags =
      { in_ := StreamFlags.Ignore,
        out := StreamFlags.Create ||| StreamFlags.Accept,
        err := StreamFlags.Ignore } :=
  rfl

/-- C10: a `Pipe` node's declared stderr capability equals its right child's
declared STDOUT capability (not the right child's stderr capability), while a
started pipe's handle exposes the right child's actual stderr descriptor;
concretely, with a literal-echo right child the pipe declares
`{Create, Accept}` for stderr although echo's own stderr capability is
`Ignore`, so the two disagree whenever the right child's stdout and stderr
capabilities differ. -/
theorem pipe_err_capability_from_rhs_stdout :
    (∀ l r : Subprocess, (Subprocess.pipe l r).get_flags.err = r.get_flags.out) ∧
    (∀ hl hr : RunSubprocess,
      (RunSubprocess.runPipe hl hr).get_streams.err = hr.get_streams.err) ∧
    ((Subprocess.pipe .true_ (.echo [.str "x"])).get_flags.err =
        StreamFlags.Create ||| StreamFlags.Accept ∧
      (Subprocess.echo [.str "x"]).get_flags.err = StreamFlags.Ignore ∧
      StreamFlags.Create ||| StreamFlags.Accept ≠ StreamFlags.Ignore) :=
  ⟨fun _ _ => rfl, fun _ _ => rfl, by decide⟩

/-- C1 counterexample: `And(LiteralFalse, LiteralTrue)` — the left child's
failing status is -1, but the `And` handle's `wait()` returns 1, not the left
child's status, refuting the claim at this concrete input. -/
theorem and_status_counterexample :
    (runEval osZero true (.and_ .false_ .true_) { env := [] } World.init).1 = .ok 1 ∧
    (runEval osZero true .false_ { env := [] } World.init).1 = .ok (-1) ∧
    (1 : Int) ≠ -1 :=
  ⟨rfl, rfl, by decide⟩

/-- C1 (amended): for `And(left, right)`, when the left child completes with
non-zero status, evaluation stops, the right child is not run, and the
combined status is the normalized value 1 (not the left child's own status);
when the left child's status is zero the right child runs and the combined
status is 0 if the right child's status is zero and 1 otherwise.  For
`Or(left, right)`, when the left child succeeds the combined status is 0 (the
left child's success status) and the right child is not run; when the left
child fails the right child runs and the combined status is 0 or 1 by the
same normalization. -/
theorem and_or_status_normalized (os : OsOracle) (mutEnv : Bool)
    (l r : Subprocess) (env : Environment) (w : World) :
    (∀ h1 env1 w1 t1,
      startEval os mutEnv l {} env w = (.ok h1, env1, w1, t1) → h1.wait ≠ 0 →
      runEval os mutEnv (.and_ l r) env w = (.ok 1, env1, w1, .task .andK :: t1)) ∧
    (∀ h1 env1 w1 t1 h2 env2 w2 t2,
      startEval os mutEnv l {} env w = (.ok h1, env1, w1, t1) → h1.wait = 0 →
      startEval os mutEnv r {} env1 w1 = (.ok h2, env2, w2, t2) →
      runEval os mutEnv (.and_ l r) env w =
        (.ok (if h2.wait = 0 then 0 else 1), env2, w2, .task .andK :: (t1 ++ t2))) ∧
    (∀ h1 env1 w1 t1,
      startEval os mutEnv l {} env w = (.ok h1, env1, w1, t1) → h1.wait = 0 →
      runEval os mutEnv (.or_ l r) env w = (.ok 0, env1, w1, .task .orK :: t1)) ∧
    (∀ h1 env1 w1 t1 h2 env2 w2 t2,
      startEval os mutEnv l {} env w = (.ok h1, env1, w1, t1) → h1.wait ≠ 0 →
      startEval os mutEnv r {} env1 w1 = (.ok h2, env2, w2, t2) →
      runEval os mutEnv (.or_ l r) env w =
        (.ok (if h2.wait = 0 then 0 else 1), env2, w2, .task .orK :: (t1 ++ t2))) := by
  refine ⟨?_, ?_, ?_, ?_⟩
  · intro h1 env1 w1 t1 hl hw
    simp only [runEval, startEval, hl, if_neg hw]
    rfl
  · intro h1 env1 w1 t1 h2 env2 w2 t2 hl hw hr
    simp only [runEval, startEval, hl, if_pos hw, hr]
    rfl
  · intro h1 env1 w1 t1 hl hw
    simp only [runEval, startEval, hl, if_pos hw]
    rfl
  · intro h1 env1 w1 t1 h2 env2 w2 t2 hl hw hr
    simp only [runEval, startEval, hl, if_neg hw, hr]
    rfl

/-- C1 witness: the amended theorem applied to `And(LiteralFalse,
LiteralTrue)` on an empty mutable environment. -/
theorem and_or_status_normalized_witness :
    runEval osZero true (.and_ .false_ .true_) { env := [] } World.init =
      (.ok 1, { env := [] }, World.init, [.task .andK]) :=
  (and_or_status_normalized osZero true .false_ .true_ { env := [] } World.init).1
    (.runEmpty {} (-1)) { env := [] } World.init [] rfl (by decide)

/-- C6: `check_stream` accepts an `Unset` (-1) slot exactly when the
capability includes `Ignore`, a `ToBeCreated` (-2) slot exactly when it
includes `Create`, and a bound slot (fd ≥ 0) exactly when it includes
`Accept`; and whenever the three-slot check of a node's declared capability
set fails for the requested streams, that node's `start` returns a
`ValidationError` with the environment, the world, and the event trace
untouched — no process or task is started. -/
theorem check_streams_fail_fast :
    (∀ stream flag, Subprocess.check_stream stream flag = true ↔
      ((stream = Streams.None ∧ flag &&& StreamFlags.Ignore ≠ 0) ∨
       (stream = Streams.New ∧ flag &&& StreamFlags.Create ≠ 0) ∨
       (0 ≤ stream ∧ flag &&& StreamFlags.Accept ≠ 0))) ∧
    (∀ (os : OsOracle) (mutEnv : Bool) (s : Subprocess) (str : Streams)
        (env : Environment) (w : World),
      s.check_streams_ok str = false →
      ∃ m, startEval os mutEnv s str env w = (.error (.validation m), env, w, [])) := by
  constructor
  · intro stream flag
    unfold Subprocess.check_stream
    simp [ge_iff_le, or_assoc]
  · intro os mutEnv s str env w hfail
    obtain ⟨m, hm⟩ := check_streamsE_fails s.get_flags str
      (by unfold Subprocess.check_streams_ok at hfail; exact hfail)
    cases s with
    | pipe l r => exact ⟨m, by simp only [startEval, hm]⟩
    | or_ l r =>
      exact ⟨m, by simp only [Subprocess.get_flags] at hm; simp only [startEval, hm]⟩
    | and_ l r =>
      exact ⟨m, by simp only [Subprocess.get_flags] at hm; simp only [startEval, hm]⟩
    | exec argv => exact ⟨m, by simp only [startEval, Exec.start, hm]⟩
    | echo var => exact ⟨m, by simp only [startEval, Echo.start, hm]⟩
    | read name =>
      cases mutEnv with
      | false => exact ⟨"Can't create variable in const Environment", rfl⟩
      | true => exact ⟨m, by simp only [startEval, Read.start, if_pos, hm]⟩
    | file p mode => exact ⟨m, by simp only [startEval, File.start, hm]⟩
    | true_ =>
      refine ⟨m, ?_⟩
      simp only [Subprocess.get_flags] at hm
      simp only [startEval, True_.start, hm]
    | false_ =>
      refine ⟨m, ?_⟩
      simp only [Subprocess.get_flags] at hm
      simp only [startEval, False_.start, hm]

/-- C6 witness: the literal-true node (capability `Ignore` everywhere) asked
to accept a bound stdout descriptor 5 fails the check and `start` raises a
`ValidationError` with no side effects. -/
theorem check_streams_fail_fast_witness :
    Subprocess.check_streams_ok .true_ { out := 5 } = false ∧
    ∃ m, startEval osZero true .true_ { out := 5 } { env := [] } World.init =
      (.error (.validation m), { env := [] }, World.init, []) :=
  ⟨by decide, check_streams_fail_fast.2 osZero true .true_ { out := 5 }
    { env := [] } World.init (by decide)⟩

/-- C4: pipe negotiation.  With the pipe's own stream check passing: when the
left child's declared output capability includes `Create` and the right
child's declared input capability includes `Accept`, the left child is
started first requesting a to-be-created output and its resulting output
descriptor is passed as the right child's bound input (the trace lists the
left child's events before the right child's); otherwise, when the left
child's output includes `Accept` and the right child's input includes
`Create`, the right child is started first requesting a to-be-created input
and its resulting input descriptor is passed as the left child's bound
output; otherwise a `ValidationError` is raised with environment, world and
trace untouched — neither side is started. -/
theorem pipe_negotiation (os : OsOracle) (mutEnv : Bool) (l r : Subprocess)
    (str : Streams) (env : Environment) (w : World)
    (hok : (Subprocess.pipe l r).check_streams_ok str = true) :
    ((l.get_flags.out &&& StreamFlags.Create ≠ 0 ∧
        r.get_flags.in_ &&& StreamFlags.Accept ≠ 0) →
      ∀ h1 env1 w1 t1 h2 env2 w2 t2,
        startEval os mutEnv l { in_ := str.in_, out := Streams.New } env w =
          (.ok h1, env1, w1, t1) →
        startEval os mutEnv r { in_ := h1.get_streams.out, out := str.out } env1 w1 =
          (.ok h2, env2, w2, t2) →
        startEval os mutEnv (.pipe l r) str env w =
          (.ok (.runPipe h1 h2), env2, w2, t1 ++ t2)) ∧
    (¬(l.get_flags.out &&& StreamFlags.Create ≠ 0 ∧
        r.get_flags.in_ &&& StreamFlags.Accept ≠ 0) →
      (l.get_flags.out &&& StreamFlags.Accept ≠ 0 ∧
        r.get_flags.in_ &&& StreamFlags.Create ≠ 0) →
      ∀ h2 env1 w1 t1 h1 env2 w2 t2,
        startEval os mutEnv r { in_ := Streams.New, out := str.out } env w =
          (.ok h2, env1, w1, t1) →
        startEval os mutEnv l { in_ := str.in_, out := h2.get_streams.in_ } env1 w1 =
          (.ok h1, env2, w2, t2) →
        startEval os mutEnv (.pipe l r) str env w =
          (.ok (.runPipe h1 h2), env2, w2, t1 ++ t2)) ∧
    (¬(l.get_flags.out &&& StreamFlags.Create ≠ 0 ∧
        r.get_flags.in_ &&& StreamFlags.Accept ≠ 0) →
      ¬(l.get_flags.out &&& StreamFlags.Accept ≠ 0 ∧
        r.get_flags.in_ &&& StreamFlags.Create ≠ 0) →
      startEval os mutEnv (.pipe l r) str env w =
        (.error (.validation "Invalid pipe connection attempt"), env, w, [])) := by
  have hok' : check_streamsE (Subprocess.pipe l r).get_flags str = .ok () :=
    (check_streamsE_ok_iff _ _).2
      (by unfold Subprocess.check_streams_ok at hok; exact hok)
  refine ⟨?_, ?_, ?_⟩
  · intro hA h1 env1 w1 t1 h2 env2 w2 t2 hs1 hs2
    simp only [startEval, hok', if_pos hA, hs1, hs2]
  · intro hnA hB h2 env1 w1 t1 h1 env2 w2 t2 hs2 hs1
    simp only [startEval, hok', if_neg hnA, if_pos hB, hs2, hs1]
  · intro hnA hnB
    simp only [startEval, hok', if_neg hnA, if_neg hnB]

/-- C4 witness: piping literal-echo into literal-echo (left can create but
right cannot accept an input, and right cannot create one either) falls into
the no-compatible-wiring branch: a `ValidationError` with nothing started. -/
theorem pipe_negotiation_witness :
    startEval osZero true (.pipe (.echo [.str "a"]) (.echo [.str "b"]))
      { in_ := -1, out := -2, err := -2 } { env := [] } World.init =
      (.error (.validation "Invalid pipe connection attempt"),
        { env := [] }, World.init, []) :=
  (pipe_negotiation osZero true (.echo [.str "a"]) (.echo [.str "b"])
    { in_ := -1, out := -2, err := -2 } { env := [] } World.init (by decide)).2.2
    (by decide) (by decide)

/-! Helpers for the echo-into-capture round trip. -/

lemma ofNat_nonneg (n : Nat) : (0 : Int) ≤ Int.ofNat n := Int.ofNat_nonneg n

lemma ofNat_ne_none (n : Nat) : ¬(Int.ofNat n = Streams.None) := by
  unfold Streams.None
  intro h
  have := h ▸ ofNat_nonneg n
  omega

lemma ofNat_ne_new (n : Nat) : ¬(Int.ofNat n = Streams.New) := by
  unfold Streams.New
  intro h
  have := h ▸ ofNat_nonneg n
  omega

lemma toNat_ofNat (n : Nat) : (Int.ofNat n).toNat = n := rfl

lemma open_pipe_bound (n : Nat) (w : World) :
    open_pipe (Int.ofNat n) w = (Int.ofNat n, Int.ofNat n, w) := by
  unfold open_pipe
  rw [if_neg (ofNat_ne_none n), if_neg (ofNat_ne_new n)]

lemma echo_flags_lit (v : List Gettable) :
    (Subprocess.echo v).get_flags = { in_ := 1, out := 6, err := 1 } := rfl

lemma read_flags_lit (name : String) :
    (Subprocess.read name).get_flags = { in_ := 6, out := 1, err := 1 } := rfl

lemma check_stream_bound_lit (n : Nat) :
    Subprocess.check_stream (Int.ofNat n) 6 = true := by
  unfold Subprocess.check_stream
  simp [ofNat_nonneg n, StreamFlags.Ignore, StreamFlags.Create, StreamFlags.Accept]

/-- `Echo::start` on a to-be-created output: allocates the pipe, writes the
space-joined arguments plus one newline into it, and exposes the new
descriptor as its stdout. -/
lemma Echo_start_create (strs : List String) (env : Environment) (w : World) :
    Echo.start (strs.map .str) { out := Streams.New } env w =
      (.ok (.runThread 0 { out := Int.ofNat w.nextFd }), env,
        { bufs := (w.nextFd, joinArgs strs ++ ['\n']) :: w.bufs,
          nextFd := w.nextFd + 1, nextPid := w.nextPid },
        [.task .echoK]) := by
  unfold Echo.start
  rw [echo_flags_lit]
  rw [show check_streamsE { in_ := 1, out := 6, err := 1 }
      ({ out := Streams.New } : Streams) = .ok () from rfl]
  simp only [resolveAll_str]
  simp [open_pipe, Streams.New, Streams.None, bufWrite, ofNat_nonneg, toNat_ofNat]

/-- `Read::start` on a bound input descriptor with a mutable environment:
reads the whole buffer, strips one trailing newline, and stores the result
under `name` with exported = false. -/
lemma Read_start_bound (name : String) (n : Nat) (env : Environment) (w : World) :
    Read.start true name { in_ := Int.ofNat n } env w =
      (.ok (.runThread 0 { in_ := Int.ofNat n }),
        { env := envSet env.env name
            (String.mk (stripNewline (bufRead w.bufs n)), false) },
        w, [.task .readK]) := by
  unfold Read.start
  rw [if_pos rfl, read_flags_lit]
  have hc : check_streamsE { in_ := 6, out := 1, err := 1 }
      ({ in_ := Int.ofNat n } : Streams) = .ok () := by
    unfold check_streamsE
    rw [check_stream_bound_lit n]
    rfl
  rw [hc, open_pipe_bound n w]
  simp [ofNat_nonneg, toNat_ofNat]

/-- C7: piping a literal-echo of strings into `CaptureOutput(name)` on a
mutable `Environment` succeeds with combined status 0 and stores, under
`name`, the echoed strings space-joined with the single trailing newline
stripped and with exported = false; in particular echoing the literal
strings "Does", "echo", "work" into a capture stores "Does echo work" under
the chosen name. -/
theorem echo_capture_roundtrip :
    (∀ (os : OsOracle) (strs : List String) (name : String)
        (env : Environment) (w : World),
      runEval os true (.pipe (.echo (strs.map .str)) (.read name)) env w =
        (.ok 0,
          { env := envSet env.env name (String.mk (joinArgs strs), false) },
          { bufs := (w.nextFd, joinArgs strs ++ ['\n']) :: w.bufs,
            nextFd := w.nextFd + 1, nextPid := w.nextPid },
          [.task .echoK, .task .readK])) ∧
    envFind (runEval osZero true
        (.pipe (.echo [.str "Does", .str "echo", .str "work"]) (.read "test"))
        { env := [] } World.init).2.1.env "test" =
      some ("Does echo work", false) := by
  constructor
  · intro os strs name env w
    unfold runEval
    simp only [startEval]
    rw [show (Subprocess.pipe (Subprocess.echo (strs.map Gettable.str))
        (Subprocess.read name)).get_flags = { in_ := 1, out := 1, err := 1 } from rfl]
    simp only [echo_flags_lit, read_flags_lit]
    rw [Echo_start_create]
    simp only [RunSubprocess.get_streams]
    rw [Read_start_bound]
    simp only [bufRead, eq_self_iff_true, if_true, stripNewline_concat]
    rfl
  · rfl

end SubprocessLib
